import Mathlib

/-
Verification of the qg_botsdk core: the HTTP request layer (`Session` in
`http.py`) and the gateway connection state machine (`BotWs` in
`qg_bot_ws.py`), shallowly embedded in Lean 4.
-/

/-! ## HTTP request layer (`http.py`, class `Session`) -/

/--
Abstraction of one HTTP response as inspected by `Session._request`:
`ok` is `resp.ok`, `contentType` is the `content-type` header (defaulting
to the empty string), `isDict` states whether the decoded JSON body is a
dict, and `code` is the integer `code` field of that body when present.
-/
structure HResp where
  ok : Bool
  contentType : String
  isDict : Bool
  code : Option Int
deriving DecidableEq, Repr

/--
Membership test for the body's `code` field in the retryable-error list
(`json_.get("code", None) not in retry_err_code`, negated): an absent
`code` is never in the list of integers.
-/
def codeIn (c : Option Int) (errSet : List Int) : Bool :=
  match c with
  | some v => errSet.contains v
  | none => false

/--
Shallow embedding of `Session._request` (http.py lines 158-175).  The
environment is a list of responses, consumed one per issued attempt.
Returns the response handed back to the caller (`none` when the response
list is exhausted), the number of attempts issued, and the number of
warning log lines emitted.  The recursive re-issue passes the `retry`
flag as `True`, exactly as `self._request(method, url, True, **kwargs)`.
-/
def Session.request (isRetry isLog : Bool) (errSet : List Int) :
    Bool → List HResp → Option HResp × Nat × Nat
  | _, [] => (none, 0, 0)
  | retry, r :: rest =>
    if r.ok = true then (some r, 1, 0)
    else
      let w1 : Nat := if isLog = true ∧ (isRetry = false ∨ retry = true) then 1 else 0
      if isRetry = true ∧ retry = false then
        if r.contentType = "application/json"
            ∧ (r.isDict = false ∨ codeIn r.code errSet = false) then
          (some r, 1, w1 + 1)
        else
          let out := Session.request isRetry isLog errSet true rest
          (out.1, out.2.1 + 1, w1 + out.2.2)
      else (some r, 1, w1)

/-- A failing first-attempt response whose content type is not JSON. -/
def respHtml : HResp :=
  { ok := false, contentType := "text/html", isDict := false, code := none }

/-- A failing response with JSON content type, dict body and a code outside the set. -/
def respJsonBad : HResp :=
  { ok := false, contentType := "application/json", isDict := true, code := some 99 }

/-- A failing response with JSON content type, dict body and a retryable code. -/
def respJsonRetryable : HResp :=
  { ok := false, contentType := "application/json", isDict := true, code := some 11264 }

/-! ### Dynamic verb lookup (`Session.__getattr__`, http.py lines 145-156) -/

/-- The five verb names served by `Session.__getattr__`. -/
def http_verbs : List String := ["get", "post", "delete", "patch", "put"]

/--
Result of an attribute lookup that fell through to `Session.__getattr__`:
either the bound verb method, or Python `None` (the function body ends
without an explicit return for other names, and never raises
`AttributeError`).
-/
inductive AttrLookup where
  | verbMethod (name : String)
  | noneValue
deriving DecidableEq, Repr

/-- Shallow embedding of `Session.__getattr__`. -/
def Session.getattr (item : String) : AttrLookup :=
  if http_verbs.contains item then .verbMethod item else .noneValue

/--
Shallow embedding of the `wrap` closure returned for a verb name: task
submission either yields a handle, or raises, in which case the error is
logged (the second component counts error-log lines) and Python `None`
is returned instead of propagating.
-/
def Session.verb_wrap (submit : Except String Nat) : Option Nat × Nat :=
  match submit with
  | .ok h => (some h, 0)
  | .error _ => (none, 1)

/-! ### Bot identity fetch (`BotWs.get_robot_info`, qg_bot_ws.py lines 125-133) -/

/--
Outcome of the identity-fetch loop: `got n` means the `n`-th attempt
carried an `id` field; `exited n` means the `n`-th attempt failed with
the retry flag set, logging the error and exiting the process;
`exhausted n` means `n` attempts were issued, all failed, and the code
is still re-issuing requests (the supplied response list ran out).
-/
inductive RobotInfoResult where
  | got (attempts : Nat)
  | exited (attempts : Nat)
  | exhausted (attempts : Nat)
deriving DecidableEq, Repr

/-- Add one issued attempt to an identity-fetch outcome. -/
def RobotInfoResult.bump : RobotInfoResult → RobotInfoResult
  | .got n => .got (n + 1)
  | .exited n => .exited (n + 1)
  | .exhausted n => .exhausted (n + 1)

/-- Number of attempts recorded in an identity-fetch outcome. -/
def RobotInfoResult.attempts : RobotInfoResult → Nat
  | .got n => n
  | .exited n => n
  | .exhausted n => n

/--
Shallow embedding of `BotWs.get_robot_info` as written: each list entry
states whether that attempt's response contains an `id` field.  Note the
recursive call is `self.get_robot_info(retry)` — it forwards the
still-`False` `retry` flag instead of passing `True`.
-/
def BotWs.get_robot_info : Bool → List Bool → RobotInfoResult
  | _, [] => .exhausted 0
  | retry, hasId :: rest =>
    if hasId = true then .got 1
    else if retry = false then (BotWs.get_robot_info retry rest).bump
    else .exited 1

/--
The behaviour claim C2 describes (and the unreachable `else` branch of
the source intends): the recursive re-fetch passes `retry=True`, so a
second `id`-less response logs the error and exits.
-/
def BotWs.get_robot_info_claimed : Bool → List Bool → RobotInfoResult
  | _, [] => .exhausted 0
  | retry, hasId :: rest =>
    if hasId = true then .got 1
    else if retry = false then (BotWs.get_robot_info_claimed true rest).bump
    else .exited 1

/-! ## Gateway connection (`qg_bot_ws.py`, class `BotWs`) -/

/-! ### Python string helpers used by `data_process` -/

/-- Python `str.strip()`: drop leading and trailing whitespace. -/
def pyStrip (s : List Char) : List Char :=
  ((s.dropWhile Char.isWhitespace).reverse.dropWhile Char.isWhitespace).reverse

/--
Python `str.find(sub)`: the lowest index at which `sub` occurs as a
substring, or `-1` when it does not occur.
-/
def pyFind (sub : List Char) : List Char → Int
  | [] => if sub.isPrefixOf ([] : List Char) then 0 else -1
  | c :: t =>
    if sub.isPrefixOf (c :: t) then 0
    else
      let r := pyFind sub t
      if r = -1 then -1 else r + 1

/-- Python `str.replace(sub, '', 1)` for nonempty `sub`: remove the first occurrence. -/
def replaceFirst (sub : List Char) : List Char → List Char
  | [] => []
  | c :: t =>
    if sub.isPrefixOf (c :: t) then (c :: t).drop sub.length
    else c :: replaceFirst sub t

/-- The bot's own mention token `<@!{robot.id}>`. -/
def mentionOf (rid : List Char) : List Char :=
  '<' :: '@' :: '!' :: (rid ++ ['>'])

/--
Argument handed to the external tokenizer `treat_msg` by the
message-create branch of `BotWs.data_process` (qg_bot_ws.py lines
157-160), exactly as written: trim the content (missing content is the
empty string), then keep it unchanged when `raw_msg.find(at)` is truthy
(nonzero) and remove the first occurrence of the mention token when it
is `0`, then trim again.
-/
def treated_arg (rid : List Char) (content : Option (List Char)) : List Char :=
  let raw := match content with
    | none => ([] : List Char)
    | some c => pyStrip c
  let atTok := mentionOf rid
  let tm := if pyFind atTok raw ≠ 0 then raw else replaceFirst atTok raw
  pyStrip tm

/--
The tokenizer argument as the spec's words describe it: trim the content
(missing content is empty), then strip the bot's own leading mention
token when present at the start, and hand the result to the tokenizer.
-/
def spec_treated_arg (rid : List Char) (content : Option (List Char)) : List Char :=
  let raw := match content with
    | none => ([] : List Char)
    | some c => pyStrip c
  let atTok := mentionOf rid
  if atTok.isPrefixOf raw then raw.drop atTok.length else raw

/-! ### Gateway data model -/

/-- Callback identities of the `BotWs` constructor. -/
inductive CbId where
  | onMsg | onDm | onDelete | onForum | onStart
  | guildEvent | channelEvent | guildMember | reaction
  | interaction | audit | audio
deriving DecidableEq, Repr

/--
The fields of a frame's `d` payload that the embedded code inspects.
Absent Python keys are `none`.
-/
structure Payload where
  heartbeat_interval : Option Int
  session_id : Option String
  content : Option (List Char)
  author_id : Option String
  op_user_id : Option String
deriving DecidableEq, Repr

/-- A payload with no fields present. -/
def emptyPayload : Payload :=
  { heartbeat_interval := none, session_id := none, content := none,
    author_id := none, op_user_id := none }

/--
One inbound gateway frame as decoded by `BotWs.main`: `op` is
`data.get('op', None)`, `s`, `t` and `event_id` model the optional
`"s"`, `"t"` and `"id"` keys, and `d` the payload.
-/
structure Frame where
  op : Option Int
  s : Option Int
  t : Option String
  event_id : Option String
  d : Payload
deriving DecidableEq, Repr

/--
The mutable `BotWs` state touched by the receive loop and the reconnect
driver: `s` is the last sequence, `robot` the fetched bot identity
(`None` until the first READY), `heartbeat_started` models the named
heartbeat task existing.
-/
structure WsState where
  s : Option Int
  reconnect_times : Nat
  re_connect : Bool
  running : Bool
  session_id : Option String
  flag : Bool
  op9_flag : Bool
  heartbeat_time : ℚ
  heartbeat_started : Bool
  robot : Option (List Char)
deriving DecidableEq, Repr

/-- The `BotWs` state right after `__init__` (qg_bot_ws.py lines 62-72). -/
def initState : WsState :=
  { s := none, reconnect_times := 0, re_connect := false, running := true,
    session_id := none, flag := false, op9_flag := false, heartbeat_time := 0,
    heartbeat_started := false, robot := none }

/--
Constructor-supplied configuration: the treatment/filter switches, which
callbacks are not `None`, and the bot identity the HTTP layer returns
on the one-time fetch.
-/
structure Config where
  msg_treat : Bool
  dm_treat : Bool
  is_filter_self : Bool
  registered : CbId → Bool
  fetched_robot_id : List Char

/-- A concrete configuration for witnesses: everything enabled. -/
def cfg0 : Config :=
  { msg_treat := true, dm_treat := true, is_filter_self := true,
    registered := fun _ => true, fetched_robot_id := ['1'] }

/--
Outcome of `BotWs.data_process` on one dispatch frame: `dispatched`
records the callback chosen, the argument that `treat_msg` receives when
a `treated_msg` field is attached (`none` when treatment is off), and
the envelope handed over (event id, event type, payload); `suppressed`
is the self-filter early return; `dropped` means the resolved callback
is `None`; `warnUnknown` is the unknown-event warning; `procError` marks
a `KeyError`/`AttributeError` swallowed by the `exception_processor`
decorator.
-/
inductive DispatchResult where
  | dispatched (cb : CbId) (treatedArg : Option (List Char))
      (event_id : Option String) (t : String) (p : Payload)
  | suppressed
  | dropped
  | warnUnknown (t : String)
  | procError
deriving DecidableEq, Repr

/-- The `self.events` dict (qg_bot_ws.py lines 74-82) as a lookup. -/
def eventsMap (t : String) : Option CbId :=
  if t = "GUILD_CREATE" ∨ t = "GUILD_UPDATE" ∨ t = "GUILD_DELETE" then
    some .guildEvent
  else if t = "CHANNEL_CREATE" ∨ t = "CHANNEL_UPDATE" ∨ t = "CHANNEL_DELETE" then
    some .channelEvent
  else if t = "GUILD_MEMBER_ADD" ∨ t = "GUILD_MEMBER_UPDATE"
      ∨ t = "GUILD_MEMBER_REMOVE" then
    some .guildMember
  else if t = "MESSAGE_REACTION_ADD" ∨ t = "MESSAGE_REACTION_REMOVE" then
    some .reaction
  else if t = "INTERACTION_CREATE" then some .interaction
  else if t = "MESSAGE_AUDIT_PASS" ∨ t = "MESSAGE_AUDIT_REJECT" then
    some .audit
  else if t = "AUDIO_START" ∨ t = "AUDIO_FINISH" ∨ t = "AUDIO_ON_MIC"
      ∨ t = "AUDIO_OFF_MIC" then
    some .audio
  else none

/-- The forum event types of qg_bot_ws.py lines 174-175. -/
def forumTypes : List String :=
  ["FORUM_THREAD_CREATE", "FORUM_THREAD_UPDATE", "FORUM_THREAD_DELETE",
   "FORUM_POST_CREATE", "FORUM_POST_DELETE", "FORUM_REPLY_CREATE",
   "FORUM_REPLY_DELETE", "FORUM_PUBLISH_AUDIT_RESULT"]

/--
Shallow embedding of `BotWs.distribute` (qg_bot_ws.py lines 143-150):
the payload is augmented with the event type and `data["id"]` (a missing
`"id"` raises, swallowed upstream as `procError`), then the callback is
scheduled unless it is `None`.
-/
def BotWs.distribute (cfg : Config) (cb : CbId) (treatedArg : Option (List Char))
    (event_id : Option String) (t : String) (p : Payload) : DispatchResult :=
  match event_id with
  | none => .procError
  | some e =>
    if cfg.registered cb then .dispatched cb treatedArg (some e) t p
    else .dropped

/--
Shallow embedding of `BotWs.data_process` (qg_bot_ws.py lines 152-188)
for one dispatch frame of type `t` with payload `p` and event id
`event_id`, given the current `self.robot` identity.  The forum-branch
JSON re-parsing of `thread_info` touches fields outside this payload
model and leaves the dispatch decision unchanged.
-/
def BotWs.data_process (cfg : Config) (robot : Option (List Char))
    (event_id : Option String) (t : String) (p : Payload) : DispatchResult :=
  if t = "AT_MESSAGE_CREATE" ∨ t = "MESSAGE_CREATE" then
    if cfg.msg_treat then
      match robot with
      | none => .procError
      | some rid =>
        BotWs.distribute cfg .onMsg (some (treated_arg rid p.content)) event_id t p
    else BotWs.distribute cfg .onMsg none event_id t p
  else if t = "MESSAGE_DELETE" ∨ t = "PUBLIC_MESSAGE_DELETE"
      ∨ t = "DIRECT_MESSAGE_DELETE" then
    if cfg.is_filter_self then
      match p.author_id, p.op_user_id with
      | some target, some op_user =>
        if op_user = target then .suppressed
        else BotWs.distribute cfg .onDelete none event_id t p
      | _, _ => .procError
    else BotWs.distribute cfg .onDelete none event_id t p
  else if t = "DIRECT_MESSAGE_CREATE" then
    if cfg.dm_treat then
      let raw := match p.content with
        | none => ([] : List Char)
        | some c => pyStrip c
      BotWs.distribute cfg .onDm (some raw) event_id t p
    else BotWs.distribute cfg .onDm none event_id t p
  else if t ∈ forumTypes then
    BotWs.distribute cfg .onForum none event_id t p
  else
    match eventsMap t with
    | some cb =>
      if cfg.registered cb then BotWs.distribute cfg cb none event_id t p
      else .dropped
    | none => .warnUnknown t

/--
Side effects of one `BotWs.main` step, in program order: control-frame
sends, log lines, process exit, heartbeat start, the one-time identity
fetch and startup callback, the dispatch outcome, and `frameError` for a
`KeyError` raised while reading a malformed frame.
-/
inductive WsAction where
  | logDebugHeartbeatOk
  | logErrorOp9
  | exitProcess
  | sendIdentify
  | sendResume
  | startHeartbeat
  | logInfoConnected
  | logInfoResumed
  | fetchRobotInfo
  | logInfoRobotId
  | callOnStart
  | disp (r : DispatchResult)
  | frameError
deriving DecidableEq, Repr

/-- `if "s" in data: self.s = data["s"]` (qg_bot_ws.py lines 193-194). -/
def BotWs.updSeq (st : WsState) (f : Frame) : WsState :=
  match f.s with
  | some v => { st with s := some v }
  | none => st

/-- The `op`-dispatching `if/elif` chain of `BotWs.main` (lines 195-234). -/
def BotWs.mainOp (cfg : Config) (st : WsState) (f : Frame) : WsState × List WsAction :=
  if f.op = some 11 then (st, [WsAction.logDebugHeartbeatOk])
  else if f.op = some 9 then
    if st.op9_flag = false then
      let st1 := { st with op9_flag := true }
      if st1.re_connect = false then (st1, [WsAction.sendIdentify])
      else (st1, [WsAction.sendResume])
    else (st, [WsAction.logErrorOp9, WsAction.exitProcess])
  else if f.op = some 10 then
    match f.d.heartbeat_interval with
    | none => (st, [WsAction.frameError])
    | some i =>
      let st1 := { st with heartbeat_time := (i : ℚ) * (1 / 1000) }
      if st1.re_connect = false then (st1, [WsAction.sendIdentify])
      else (st1, [WsAction.sendResume])
  else if f.op = some 0 then
    match f.t with
    | none => (st, [WsAction.frameError])
    | some t =>
      if t = "READY" then
        match f.d.session_id with
        | none => (st, [WsAction.frameError])
        | some sid =>
          let st1 := { st with session_id := some sid, reconnect_times := 0 }
          let hbActs := if st1.heartbeat_started = true then ([] : List WsAction)
            else [WsAction.startHeartbeat]
          let st2 := { st1 with heartbeat_started := true }
          if st2.flag = false then
            let st3 := { st2 with flag := true, robot := some cfg.fetched_robot_id }
            let startActs := if cfg.registered CbId.onStart then [WsAction.callOnStart]
              else ([] : List WsAction)
            (st3, hbActs ++ [WsAction.logInfoConnected, WsAction.fetchRobotInfo,
              WsAction.logInfoRobotId] ++ startActs)
          else (st2, hbActs ++ [WsAction.logInfoConnected])
      else if t = "RESUMED" then
        let hbActs := if st.heartbeat_started = true then ([] : List WsAction)
          else [WsAction.startHeartbeat]
        let st1 := { st with reconnect_times := 0, heartbeat_started := true }
        (st1, hbActs ++ [WsAction.logInfoResumed])
      else (st, [WsAction.disp (BotWs.data_process cfg st.robot f.event_id t f.d)])
  else (st, [])

/-- Shallow embedding of `BotWs.main` on one received text frame. -/
def BotWs.main (cfg : Config) (st : WsState) (f : Frame) : WsState × List WsAction :=
  BotWs.mainOp cfg (BotWs.updSeq st f) f

/--
Entry into `BotWs.connect` (line 237): each connection attempt first
increments `reconnect_times`; nothing else of the retained state changes.
-/
def BotWs.connect_begin (st : WsState) : WsState :=
  { st with reconnect_times := st.reconnect_times + 1 }

/--
Transport close/error handling inside the receive loop (lines 251-257):
while still running, mark the connection for resume.
-/
def BotWs.on_ws_closed (st : WsState) : WsState :=
  if st.running then { st with re_connect := true } else st

/--
The reconnect driver's decision (line 269):
`self.re_connect = False if self.reconnect_times >= 20 else True`.
-/
def BotWs.starter_decide (st : WsState) : WsState :=
  { st with re_connect := decide (st.reconnect_times < 20) }

/--
Frames that reset `reconnect_times` to 0: a dispatch frame that is a
well-formed READY (its payload carries a session id) or a RESUMED.
-/
abbrev ResetsReconnect (f : Frame) : Prop :=
  f.op = some 0
    ∧ ((f.t = some "READY" ∧ f.d.session_id ≠ none) ∨ f.t = some "RESUMED")

/-- A hello frame announcing a 30000 ms heartbeat interval. -/
def hello30 : Frame :=
  { op := some 10, s := none, t := none, event_id := none,
    d := { emptyPayload with heartbeat_interval := some 30000 } }

/-- A state that has already accumulated 21 reconnect attempts. -/
def st20 : WsState := { initState with reconnect_times := 21 }

/-- An invalid-session control frame. -/
def op9Frame : Frame :=
  { op := some 9, s := none, t := none, event_id := none, d := emptyPayload }

/-- State at the start of the first connection attempt. -/
def c3_conn1_state : WsState := BotWs.connect_begin initState

/-- State after the first invalid-session frame of the first attempt. -/
def c3_after_op9 : WsState := (BotWs.main cfg0 c3_conn1_state op9Frame).1

/--
State at the start of a later, fresh connection attempt: the transport
closed, the reconnect driver decided `re_connect`, and `connect` was
re-entered.
-/
def c3_fresh_attempt : WsState :=
  BotWs.connect_begin (BotWs.starter_decide (BotWs.on_ws_closed c3_after_op9))

/-- A state whose stored sequence is already 5. -/
def seqHighState : WsState := { initState with s := some 5 }

/-- A heartbeat-ack frame carrying sequence 3. -/
def seqLowFrame : Frame :=
  { op := some 11, s := some 3, t := none, event_id := none, d := emptyPayload }

/-- A delete-event payload whose author and operating user coincide. -/
def pDelSelf : Payload :=
  { emptyPayload with author_id := some "u1", op_user_id := some "u1" }

/-- A delete-event payload deleted by someone else. -/
def pDelOther : Payload :=
  { emptyPayload with author_id := some "u1", op_user_id := some "u2" }

/-- A message content starting with the bot's mention token. -/
def msgContentSample : List Char := "<@!1> hi".toList

/-! ## Theorems -/
/-- A call already flagged as a retry issues exactly one attempt. -/
theorem request_retry_attempts_le_one (isRetry isLog : Bool) (errSet : List Int)
    (resps : List HResp) :
    (Session.request isRetry isLog errSet true resps).2.1 ≤ 1 := by
  cases resps with
  | nil => simp [Session.request]
  | cons r rest =>
    by_cases h : r.ok = true <;> simp [Session.request, h]

/-- A call already flagged as a retry returns its own first response. -/
theorem request_retry_returns_first (isRetry isLog : Bool) (errSet : List Int)
    (r : HResp) (rest : List HResp) :
    (Session.request isRetry isLog errSet true (r :: rest)).1 = some r
    ∧ (Session.request isRetry isLog errSet true (r :: rest)).2.1 = 1 := by
  by_cases h : r.ok = true <;> simp [Session.request, h]

/--
Claim C4: at most one retry attempt is ever derived from an original REST
call: any call makes at most two attempts, and a call issued with the
retry flag set makes exactly one attempt and returns its response as-is,
so a second failure with a retryable code is returned to the caller
without a further re-issue.
-/
theorem request_at_most_one_retry (isRetry isLog : Bool) (errSet : List Int) :
    (∀ retry resps, (Session.request isRetry isLog errSet retry resps).2.1 ≤ 2)
    ∧ (∀ (r : HResp) (rest : List HResp),
        (Session.request isRetry isLog errSet true (r :: rest)).1 = some r
        ∧ (Session.request isRetry isLog errSet true (r :: rest)).2.1 = 1) := by
  constructor
  · intro retry resps
    cases resps with
    | nil => simp [Session.request]
    | cons r rest =>
      have hb := request_retry_attempts_le_one isRetry isLog errSet rest
      by_cases h : r.ok = true
      · simp [Session.request, h]
      · by_cases hir : isRetry = true ∧ retry = false
        · obtain ⟨hR, hRe⟩ := hir
          subst hR; subst hRe
          by_cases hc : r.contentType = "application/json"
              ∧ (r.isDict = false ∨ codeIn r.code errSet = false)
          · simp [Session.request, h, hc]
          · simp only [Session.request, h] at hb ⊢
            simp [hc]
            omega
        · simp [Session.request, h, hir]
  · intro r rest
    exact request_retry_returns_first isRetry isLog errSet r rest

/--
Claim C1 counterexample: a failing first attempt whose content type is
not JSON is automatically re-issued (2 attempts are made), whereas the
claim states that any non-JSON failing first attempt is logged and
returned with no re-issue (1 attempt).
-/
theorem request_nonjson_counterexample :
    respHtml.ok = false
    ∧ respHtml.contentType ≠ "application/json"
    ∧ (Session.request true true [11264] false [respHtml, respHtml]).2.1 = 2 := by
  refine ⟨rfl, by decide, by decide⟩

/--
Claim C1 as amended: with retry enabled, a failing first-attempt
response is re-issued exactly when its content type is not JSON, or it
is JSON with a dict body whose `code` is in the retryable set; only a
JSON-content-type failing response whose body is not a dict or whose
code is outside the set is logged (exactly one warning) and returned
with no re-issue.
-/
theorem request_retry_decision (isLog : Bool) (errSet : List Int)
    (r r2 : HResp) (h : r.ok = false) :
    (r.contentType = "application/json"
        ∧ (r.isDict = false ∨ codeIn r.code errSet = false) →
      Session.request true isLog errSet false [r, r2] = (some r, 1, 1))
    ∧ (¬(r.contentType = "application/json"
        ∧ (r.isDict = false ∨ codeIn r.code errSet = false)) →
      (Session.request true isLog errSet false [r, r2]).2.1 = 2) := by
  constructor
  · intro hc
    simp [Session.request, h, hc]
  · intro hc
    by_cases h2 : r2.ok = true <;>
      simp [Session.request, h, hc, h2]

/-- Witness for the amended claim C1 at concrete responses. -/
theorem request_retry_decision_witness :
    (respJsonBad.contentType = "application/json"
        ∧ (respJsonBad.isDict = false ∨ codeIn respJsonBad.code [11264] = false) →
      Session.request true true [11264] false [respJsonBad, respJsonRetryable]
        = (some respJsonBad, 1, 1))
    ∧ (¬(respJsonBad.contentType = "application/json"
        ∧ (respJsonBad.isDict = false ∨ codeIn respJsonBad.code [11264] = false)) →
      (Session.request true true [11264] false [respJsonBad, respJsonRetryable]).2.1 = 2) :=
  request_retry_decision true [11264] respJsonBad respJsonRetryable rfl

/--
Claim C10: any attribute other than the five verb names resolves to
`None` through `Session.__getattr__` instead of raising, each verb name
resolves to its bound method, and a verb call whose task submission
raises logs the error and returns `None` rather than propagating.
-/
theorem getattr_spec :
    (∀ item : String, http_verbs.contains item = false →
      Session.getattr item = .noneValue)
    ∧ (∀ item : String, http_verbs.contains item = true →
      Session.getattr item = .verbMethod item)
    ∧ (∀ e : String, Session.verb_wrap (.error e) = (none, 1))
    ∧ (∀ h : Nat, Session.verb_wrap (.ok h) = (some h, 0)) := by
  refine ⟨?_, ?_, ?_, ?_⟩
  · intro item hi
    simp only [Session.getattr, hi]
    simp
  · intro item hi
    simp only [Session.getattr, hi]
    simp
  · intro e; rfl
  · intro h; rfl

/-- Witness for claim C10 at concrete inputs. -/
theorem getattr_spec_witness :
    Session.getattr "json" = AttrLookup.noneValue
    ∧ Session.getattr "post" = AttrLookup.verbMethod "post"
    ∧ Session.verb_wrap (Except.error "boom") = (none, 1) :=
  ⟨getattr_spec.1 "json" (by decide), getattr_spec.2.1 "post" (by decide),
    getattr_spec.2.2.1 "boom"⟩

/--
Claim C2 (code bug): with every response lacking `id`, the code keeps
re-issuing the fetch — a third attempt is made and after three failures
it is still retrying, never reaching the log-and-exit branch — whereas
the claimed behaviour exits after the second attempt and never makes
more than two attempts.
-/
theorem get_robot_info_bug :
    BotWs.get_robot_info false [false, false, true] = .got 3
    ∧ BotWs.get_robot_info false [false, false, false] = .exhausted 3
    ∧ BotWs.get_robot_info_claimed false [false, false, true] = .exited 2
    ∧ ∀ resps, (BotWs.get_robot_info_claimed false resps).attempts ≤ 2 := by
  refine ⟨by decide, by decide, by decide, ?_⟩
  intro resps
  cases resps with
  | nil => simp [BotWs.get_robot_info_claimed, RobotInfoResult.attempts]
  | cons b rest =>
    by_cases hb : b = true
    · simp [BotWs.get_robot_info_claimed, hb, RobotInfoResult.attempts]
    · cases rest with
      | nil =>
        simp [BotWs.get_robot_info_claimed, hb, RobotInfoResult.bump,
          RobotInfoResult.attempts]
      | cons c rest2 =>
        by_cases hc : c = true <;>
          simp [BotWs.get_robot_info_claimed, hb, hc, RobotInfoResult.bump,
            RobotInfoResult.attempts]

/-- `pyFind` returns either `-1` or a nonnegative index. -/
theorem pyFind_neg_or_nonneg (sub s : List Char) :
    pyFind sub s = -1 ∨ 0 ≤ pyFind sub s := by
  induction s with
  | nil =>
    by_cases h : sub.isPrefixOf ([] : List Char) <;> simp [pyFind, h]
  | cons c t ih =>
    by_cases h : sub.isPrefixOf (c :: t)
    · simp [pyFind, h]
    · simp only [pyFind, h, if_false]
      by_cases hr : pyFind sub t = -1
      · simp [hr]
      · rcases ih with ih | ih
        · exact absurd ih hr
        · right
          simp only [hr, if_false]
          omega

/-- `pyFind` is `0` exactly when the needle is a prefix of the haystack. -/
theorem pyFind_eq_zero_iff (sub s : List Char) :
    pyFind sub s = 0 ↔ sub.isPrefixOf s = true := by
  constructor
  · intro h0
    by_contra hp
    cases s with
    | nil =>
      simp only [pyFind] at h0
      rw [if_neg hp] at h0
      exact absurd h0 (by decide)
    | cons c t =>
      simp only [pyFind] at h0
      rw [if_neg hp] at h0
      by_cases hr : pyFind sub t = -1
      · rw [if_pos hr] at h0
        exact absurd h0 (by decide)
      · rw [if_neg hr] at h0
        rcases pyFind_neg_or_nonneg sub t with h2 | h2
        · exact absurd h2 hr
        · omega
  · intro hp
    cases s with
    | nil => simp [pyFind, hp]
    | cons c t => simp [pyFind, hp]

/-- Removing the first occurrence of a prefix drops exactly that prefix. -/
theorem replaceFirst_of_isPrefixOf (sub s : List Char) (h : sub.isPrefixOf s = true) :
    replaceFirst sub s = s.drop sub.length := by
  cases s with
  | nil =>
    have : sub = [] := by simpa using h
    simp [replaceFirst, this]
  | cons c t => simp [replaceFirst, h]

/--
The code's tokenizer argument is the spec-described one with one extra
trim applied after the mention is stripped.
-/
theorem treated_arg_eq_strip_spec (rid : List Char) (content : Option (List Char)) :
    treated_arg rid content = pyStrip (spec_treated_arg rid content) := by
  unfold treated_arg spec_treated_arg
  cases content with
  | none =>
    by_cases hp : (mentionOf rid).isPrefixOf ([] : List Char)
    · have h0 : pyFind (mentionOf rid) ([] : List Char) = 0 :=
        (pyFind_eq_zero_iff _ _).2 hp
      simp [h0, hp, replaceFirst_of_isPrefixOf _ _ hp]
    · have h0 : pyFind (mentionOf rid) ([] : List Char) ≠ 0 := by
        intro h
        exact hp ((pyFind_eq_zero_iff _ _).1 h)
      simp [h0, hp]
  | some c =>
    by_cases hp : (mentionOf rid).isPrefixOf (pyStrip c)
    · have h0 : pyFind (mentionOf rid) (pyStrip c) = 0 :=
        (pyFind_eq_zero_iff _ _).2 hp
      simp [h0, hp, replaceFirst_of_isPrefixOf _ _ hp]
    · have h0 : pyFind (mentionOf rid) (pyStrip c) ≠ 0 := by
        intro h
        exact hp ((pyFind_eq_zero_iff _ _).1 h)
      simp [h0, hp]

/-- `updSeq` leaves `reconnect_times` unchanged. -/
theorem updSeq_reconnect (st : WsState) (f : Frame) :
    (BotWs.updSeq st f).reconnect_times = st.reconnect_times := by
  unfold BotWs.updSeq
  cases f.s <;> rfl

/-- `updSeq` leaves `re_connect` unchanged. -/
theorem updSeq_re_connect (st : WsState) (f : Frame) :
    (BotWs.updSeq st f).re_connect = st.re_connect := by
  unfold BotWs.updSeq
  cases f.s <;> rfl

/-- `updSeq` leaves `op9_flag` unchanged. -/
theorem updSeq_op9 (st : WsState) (f : Frame) :
    (BotWs.updSeq st f).op9_flag = st.op9_flag := by
  unfold BotWs.updSeq
  cases f.s <;> rfl

/-- The `op` branches of `main` never write the stored sequence. -/
theorem mainOp_s (cfg : Config) (st : WsState) (f : Frame) :
    (BotWs.mainOp cfg st f).1.s = st.s := by
  simp only [BotWs.mainOp]
  repeat' split
  all_goals rfl

/-- The `op` branches reset `reconnect_times` exactly on READY/RESUMED. -/
theorem mainOp_reconnect (cfg : Config) (st : WsState) (f : Frame) :
    (BotWs.mainOp cfg st f).1.reconnect_times
      = if ResetsReconnect f then 0 else st.reconnect_times := by
  simp only [BotWs.mainOp]
  repeat' split
  all_goals simp_all [ResetsReconnect]

/--
Claim C9 counterexample: a frame carrying sequence 3 processed in a
state whose stored sequence is 5 leaves the stored sequence at 3, a
strict decrease, whereas the claim states the stored sequence never
decreases within one connection's lifetime.
-/
theorem sequence_decrease_counterexample :
    seqHighState.s = some 5
    ∧ (BotWs.main cfg0 seqHighState seqLowFrame).1.s = some 3
    ∧ (3 : Int) < 5 := by
  refine ⟨rfl, by decide, by decide⟩

/--
Claim C9 as amended: the receive loop stores a frame's sequence field
unconditionally — after processing any frame whose `s` key is present
with value `v`, the stored sequence is exactly `v`, whether or not that
is a decrease.
-/
theorem sequence_overwrite (cfg : Config) (st : WsState) (f : Frame) (v : Int)
    (hs : f.s = some v) : (BotWs.main cfg st f).1.s = some v := by
  unfold BotWs.main
  rw [mainOp_s]
  unfold BotWs.updSeq
  rw [hs]

/-- Witness for the amended claim C9 at a concrete frame. -/
theorem sequence_overwrite_witness :
    (BotWs.main cfg0 initState seqLowFrame).1.s = some 3 :=
  sequence_overwrite cfg0 initState seqLowFrame 3 rfl

/--
Claim C7: processing a hello frame carrying
`heartbeat_interval = I` milliseconds sets the heartbeat period to
`I / 1000` seconds.
-/
theorem hello_sets_heartbeat (cfg : Config) (st : WsState) (f : Frame) (i : Int)
    (hop : f.op = some 10) (hint : f.d.heartbeat_interval = some i) :
    (BotWs.main cfg st f).1.heartbeat_time = (i : ℚ) / 1000 := by
  by_cases hr : (BotWs.updSeq st f).re_connect = false <;>
    simp [BotWs.main, BotWs.mainOp, hop, hint, hr] <;> ring

/-- Witness for claim C7: a 30000 ms hello yields a 30 s period. -/
theorem hello_sets_heartbeat_witness :
    (BotWs.main cfg0 initState hello30).1.heartbeat_time = (30000 : ℚ) / 1000 :=
  hello_sets_heartbeat cfg0 initState hello30 30000 rfl rfl

/--
Claim C6: `reconnect_times` becomes 0 exactly when a (well-formed)
READY or RESUMED dispatch is processed and is otherwise untouched by
`main`; and once it has reached 20 or more, the driver disables resume,
so the next attempt answers hello with a full identify rather than a
resume.
-/
theorem reconnect_counter_policy (cfg : Config) (st st2 : WsState) (f g : Frame)
    (i : Int) (h20 : 20 ≤ st2.reconnect_times)
    (hop : g.op = some 10) (hint : g.d.heartbeat_interval = some i) :
    ((BotWs.main cfg st f).1.reconnect_times
      = if ResetsReconnect f then 0 else st.reconnect_times)
    ∧ (BotWs.starter_decide st2).re_connect = false
    ∧ (BotWs.main cfg (BotWs.connect_begin (BotWs.starter_decide st2)) g).2
        = [WsAction.sendIdentify] := by
  have hdec : (BotWs.starter_decide st2).re_connect = false := by
    simp only [BotWs.starter_decide]
    rw [decide_eq_false_iff_not]
    omega
  refine ⟨?_, hdec, ?_⟩
  · unfold BotWs.main
    rw [mainOp_reconnect, updSeq_reconnect]
  · have hr : (BotWs.updSeq (BotWs.connect_begin (BotWs.starter_decide st2)) g).re_connect
        = false := by
      rw [updSeq_re_connect]
      simpa [BotWs.connect_begin] using hdec
    simp [BotWs.main, BotWs.mainOp, hop, hint, hr]

/-- Witness for claim C6 at concrete frames and states. -/
theorem reconnect_counter_policy_witness :
    ((BotWs.main cfg0 st20 hello30).1.reconnect_times
      = if ResetsReconnect hello30 then 0 else st20.reconnect_times)
    ∧ (BotWs.starter_decide st20).re_connect = false
    ∧ (BotWs.main cfg0 (BotWs.connect_begin (BotWs.starter_decide st20)) hello30).2
        = [WsAction.sendIdentify] :=
  reconnect_counter_policy cfg0 st20 st20 hello30 hello30 30000 (by decide) rfl rfl

/--
Claim C3 counterexample: after one invalid-session in the first
connection attempt, an invalid-session received in a later, fresh
connection attempt is not treated as a first occurrence — it logs the
fatal error and exits, because `op9_flag` is never reset between
attempts; the claim states it would re-send identify or resume.
-/
theorem invalid_session_counterexample :
    (BotWs.main cfg0 c3_conn1_state op9Frame).2 = [WsAction.sendIdentify]
    ∧ (BotWs.main cfg0 c3_fresh_attempt op9Frame).2
        = [WsAction.logErrorOp9, WsAction.exitProcess] := by
  refine ⟨by decide, by decide⟩

/--
Claim C3 as amended: the first invalid-session ever received re-sends
identify when resume is not allowed and resume otherwise, and processing
continues; any later invalid-session — in the same or any later
connection attempt — logs the fatal error and exits, since neither the
transport-close handler, the reconnect driver, nor connection entry
resets `op9_flag`.
-/
theorem invalid_session_policy (cfg : Config) (st st2 st3 : WsState) (f : Frame)
    (hf : f.op = some 9) (h1 : st.op9_flag = false) (h2 : st2.op9_flag = true) :
    (st.re_connect = false →
      BotWs.main cfg st f
        = ({ BotWs.updSeq st f with op9_flag := true }, [WsAction.sendIdentify]))
    ∧ (st.re_connect = true →
      BotWs.main cfg st f
        = ({ BotWs.updSeq st f with op9_flag := true }, [WsAction.sendResume]))
    ∧ (BotWs.main cfg st2 f).2 = [WsAction.logErrorOp9, WsAction.exitProcess]
    ∧ (BotWs.connect_begin st3).op9_flag = st3.op9_flag
    ∧ (BotWs.on_ws_closed st3).op9_flag = st3.op9_flag
    ∧ (BotWs.starter_decide st3).op9_flag = st3.op9_flag := by
  refine ⟨?_, ?_, ?_, rfl, ?_, rfl⟩
  · intro hrc
    have h1u : (BotWs.updSeq st f).op9_flag = false := by rw [updSeq_op9]; exact h1
    have hru : (BotWs.updSeq st f).re_connect = false := by
      rw [updSeq_re_connect]; exact hrc
    simp [BotWs.main, BotWs.mainOp, hf, h1u, hru]
  · intro hrc
    have h1u : (BotWs.updSeq st f).op9_flag = false := by rw [updSeq_op9]; exact h1
    have hru : (BotWs.updSeq st f).re_connect = true := by
      rw [updSeq_re_connect]; exact hrc
    simp [BotWs.main, BotWs.mainOp, hf, h1u, hru]
  · have h2u : (BotWs.updSeq st2 f).op9_flag = true := by rw [updSeq_op9]; exact h2
    simp [BotWs.main, BotWs.mainOp, hf, h2u]
  · unfold BotWs.on_ws_closed
    split <;> rfl

/-- Witness for the amended claim C3 at concrete states. -/
theorem invalid_session_policy_witness :
    (initState.re_connect = false →
      BotWs.main cfg0 initState op9Frame
        = ({ BotWs.updSeq initState op9Frame with op9_flag := true },
            [WsAction.sendIdentify]))
    ∧ (initState.re_connect = true →
      BotWs.main cfg0 initState op9Frame
        = ({ BotWs.updSeq initState op9Frame with op9_flag := true },
            [WsAction.sendResume]))
    ∧ (BotWs.main cfg0 c3_fresh_attempt op9Frame).2
        = [WsAction.logErrorOp9, WsAction.exitProcess]
    ∧ (BotWs.connect_begin initState).op9_flag = initState.op9_flag
    ∧ (BotWs.on_ws_closed initState).op9_flag = initState.op9_flag
    ∧ (BotWs.starter_decide initState).op9_flag = initState.op9_flag :=
  invalid_session_policy cfg0 initState c3_fresh_attempt initState op9Frame
    rfl rfl (by decide)

/--
Claim C5: with self-filtering enabled, a message-delete event
(MESSAGE_DELETE, PUBLIC_MESSAGE_DELETE or DIRECT_MESSAGE_DELETE) is
suppressed — no callback, no log — exactly when the deleted message's
author id equals the operating user's id; otherwise the registered
delete callback receives the full envelope.
-/
theorem delete_self_filter (cfg : Config) (robot : Option (List Char))
    (t e a o : String) (p : Payload)
    (ht : t = "MESSAGE_DELETE" ∨ t = "PUBLIC_MESSAGE_DELETE"
      ∨ t = "DIRECT_MESSAGE_DELETE")
    (hf : cfg.is_filter_self = true)
    (ha : p.author_id = some a) (ho : p.op_user_id = some o)
    (hreg : cfg.registered CbId.onDelete = true) :
    (BotWs.data_process cfg robot (some e) t p = DispatchResult.suppressed ↔ o = a)
    ∧ (o ≠ a → BotWs.data_process cfg robot (some e) t p
        = DispatchResult.dispatched CbId.onDelete none (some e) t p) := by
  have hnm : ¬(t = "AT_MESSAGE_CREATE" ∨ t = "MESSAGE_CREATE") := by
    rcases ht with h | h | h <;> subst h <;> decide
  have hcompute : BotWs.data_process cfg robot (some e) t p
      = (if o = a then DispatchResult.suppressed
         else DispatchResult.dispatched CbId.onDelete none (some e) t p) := by
    unfold BotWs.data_process BotWs.distribute
    rw [if_neg hnm, if_pos ht, if_pos hf, ha, ho]
    simp [hreg]
  constructor
  · rw [hcompute]
    by_cases hoa : o = a
    · simp [hoa]
    · simp [hoa]
  · intro hne
    rw [hcompute, if_neg hne]

/-- Witness for claim C5 at concrete payloads. -/
theorem delete_self_filter_witness :
    ((BotWs.data_process cfg0 none (some "e1") "MESSAGE_DELETE" pDelSelf
        = DispatchResult.suppressed ↔ ("u1" : String) = "u1")
      ∧ (("u1" : String) ≠ "u1" →
        BotWs.data_process cfg0 none (some "e1") "MESSAGE_DELETE" pDelSelf
          = DispatchResult.dispatched CbId.onDelete none (some "e1")
              "MESSAGE_DELETE" pDelSelf))
    ∧ ((BotWs.data_process cfg0 none (some "e1") "MESSAGE_DELETE" pDelOther
        = DispatchResult.suppressed ↔ ("u2" : String) = "u1")
      ∧ (("u2" : String) ≠ "u1" →
        BotWs.data_process cfg0 none (some "e1") "MESSAGE_DELETE" pDelOther
          = DispatchResult.dispatched CbId.onDelete none (some "e1")
              "MESSAGE_DELETE" pDelOther)) :=
  ⟨delete_self_filter cfg0 none "MESSAGE_DELETE" "e1" "u1" "u1" pDelSelf
      (Or.inl rfl) rfl rfl rfl rfl,
    delete_self_filter cfg0 none "MESSAGE_DELETE" "e1" "u1" "u2" pDelOther
      (Or.inl rfl) rfl rfl rfl rfl⟩

/--
Claim C8 counterexample: for content `"<@!1> hi"` and robot id `1`, the
code hands the tokenizer `"hi"`, while the pipeline the claim describes
(trim, strip the leading mention token, tokenize the result) yields
`" hi"` — the code performs a second trim the claim omits.
-/
theorem msg_treat_counterexample :
    treated_arg ['1'] (some msgContentSample) = ['h', 'i']
    ∧ spec_treated_arg ['1'] (some msgContentSample) = [' ', 'h', 'i']
    ∧ treated_arg ['1'] (some msgContentSample)
        ≠ spec_treated_arg ['1'] (some msgContentSample) := by
  refine ⟨by decide, by decide, by decide⟩

/--
Claim C8 as amended: for message-create events with treatment enabled,
the argument handed to the external tokenizer is the trimmed content
(empty when the content field is missing) with the bot's leading mention
token stripped when present at the start, trimmed once more; the
tokenizer's output is attached to the payload dispatched to the message
callback.
-/
theorem msg_treat_pipeline (cfg : Config) (rid : List Char) (e t : String)
    (p : Payload)
    (ht : t = "AT_MESSAGE_CREATE" ∨ t = "MESSAGE_CREATE")
    (hm : cfg.msg_treat = true) (hreg : cfg.registered CbId.onMsg = true) :
    BotWs.data_process cfg (some rid) (some e) t p
      = DispatchResult.dispatched CbId.onMsg
          (some (pyStrip (spec_treated_arg rid p.content))) (some e) t p := by
  unfold BotWs.data_process BotWs.distribute
  rw [if_pos ht, if_pos hm]
  simp [hreg, treated_arg_eq_strip_spec]

/-- Witness for the amended claim C8 at a concrete message. -/
theorem msg_treat_pipeline_witness :
    BotWs.data_process cfg0 (some ['1']) (some "e2") "AT_MESSAGE_CREATE"
        { emptyPayload with content := some msgContentSample }
      = DispatchResult.dispatched CbId.onMsg
          (some (pyStrip (spec_treated_arg ['1']
            ({ emptyPayload with content := some msgContentSample }).content)))
          (some "e2") "AT_MESSAGE_CREATE"
          { emptyPayload with content := some msgContentSample } :=
  msg_treat_pipeline cfg0 ['1'] "e2" "AT_MESSAGE_CREATE"
    { emptyPayload with content := some msgContentSample } (Or.inl rfl) rfl rfl

